import Mathlib

/-!
Verification of the core of `thehelp/cluster`: the shutdown coordinator
(`Graceful`, in `src/server/index.js`, with the earlier revision in
`src/server/graceful.js`), the connection/request drainer
(`GracefulExpress`, `src/server/graceful_express.js`) and the worker
supervisor (`Master`, `src/server/master.js`).

The JavaScript is shallowly embedded: each method becomes a pure Lean
function on an explicit state record; the event-driven socket tracking
becomes a labelled step relation; JS exceptions become `Except`-style
results; counters record how many times an external effect (messenger
call, event fan-out, process fork) was invoked.
-/

/-- JS `a || b` for a possibly-absent number `a`: `undefined` and `0` are
falsy, every other number is truthy. Models expressions such as
`options.pollInterval || 250` and `this.error.exitCode || 1`. -/
def jsOrInt (a : Option Int) (b : Int) : Int :=
  match a with
  | none => b
  | some v => if v = 0 then b else v

/-- Number of occurrences of `x` in `l` (the multiset count used by the
socket-accounting statements). -/
def countOcc {α : Type} [DecidableEq α] (x : α) : List α → Nat
  | [] => 0
  | y :: ys => (if y = x then 1 else 0) + countOcc x ys

/-- Remove the first occurrence of `x` from `l`, leaving every other
occurrence intact.  This is the loop pattern used by
`GracefulExpress.prototype.removeActiveSocket`, `_removeResponse` and
`_removeSocket`: scan, splice out the first `===` match, return. -/
def eraseFirst {α : Type} [DecidableEq α] (x : α) : List α → List α
  | [] => []
  | y :: ys => if y = x then ys else y :: eraseFirst x ys

/-- Append `x` unless it is already present.  This is the loop pattern of
`GracefulExpress.prototype._addSocket`: scan for an `===` match, return if
found, otherwise push. -/
def addIfAbsent {α : Type} [DecidableEq α] (x : α) (l : List α) : List α :=
  if x ∈ l then l else l ++ [x]

namespace Graceful

/-- An error object as `Graceful` reads it: only the `exitCode` field is
consulted (by `_die`, `src/server/index.js` lines 262-265).  `none` models
an absent field. -/
structure JsError where
  exitCode : Option Int
deriving DecidableEq, Repr

/-- The numeric options accepted by the `Graceful` constructors
(`messenger` and `log` are function-valued and play no role in the claims
below). -/
structure Options where
  pollInterval : Option Int := none
  timeout : Option Int := none
deriving DecidableEq, Repr

/-- The state of a `Graceful` coordinator.  `shuttingDown`, `error`,
`sending`, `pollInterval`, `timeout` mirror the instance fields of the same
names in `src/server/index.js`.  The three counters are instrumentation:
`messengerCalls` counts invocations of `this.messenger`, `shutdownEmits`
counts executions of the `emit('shutdown')` listener fan-out, and
`exitCalls` counts entries into the `_exit()` sequence. -/
structure State where
  shuttingDown : Bool
  error : Option JsError
  sending : Bool
  pollInterval : Int
  timeout : Int
  messengerCalls : Nat
  shutdownEmits : Nat
  exitCalls : Nat
deriving DecidableEq, Repr

/-- The `Graceful` constructor of `src/server/index.js` (lines 72-109):
`this.shuttingDown = false`, `this._sending = false`,
`this.pollInterval = options.pollInterval || 250`,
`this.timeout = options.timeout || 5 * 1000`. -/
def init (o : Options) : State :=
  { shuttingDown := false
    error := none
    sending := false
    pollInterval := jsOrInt o.pollInterval 250
    timeout := jsOrInt o.timeout (5 * 1000)
    messengerCalls := 0
    shutdownEmits := 0
    exitCalls := 0 }

/-- The `Graceful` constructor of the earlier revision
`src/server/graceful.js` (lines 28-54).  Note line 36 of that file:
`this.timeout = options.pollInterval || 5 * 1000;` — the timeout default
reads the `pollInterval` option. -/
def initRev (o : Options) : State :=
  { shuttingDown := false
    error := none
    sending := false
    pollInterval := jsOrInt o.pollInterval 250
    timeout := jsOrInt o.pollInterval (5 * 1000)
    messengerCalls := 0
    shutdownEmits := 0
    exitCalls := 0 }

/-- `Graceful.prototype._sendError` (`src/server/index.js` lines 179-189):
only when an error is present does it set `_sending` and invoke the
messenger (one invocation counted). -/
def sendError (err : Option JsError) (s : State) : State :=
  match err with
  | none => s
  | some _ => { s with sending := true, messengerCalls := s.messengerCalls + 1 }

/-- `Graceful.prototype.shutdown` (`src/server/index.js` lines 145-161):
if not already shutting down, latch the flag, store the error, send it via
the messenger, run the `shutdown` event fan-out (counted once) and begin
the exit sequence; otherwise do nothing. -/
def shutdown (err : Option JsError) (s : State) : State :=
  if s.shuttingDown then s
  else
    let s1 := { s with shuttingDown := true, error := err }
    let s2 := sendError err s1
    { s2 with shutdownEmits := s2.shutdownEmits + 1, exitCalls := s2.exitCalls + 1 }

/-- `Graceful.prototype._die` (`src/server/index.js` lines 262-265):
`var code = this.error ? this.error.exitCode || 1 : 0`. -/
def die (s : State) : Int :=
  match s.error with
  | none => 0
  | some e => jsOrInt e.exitCode 1

/-- The exit-code rule exactly as the specification states it: `0` with no
error, the error's `exitCode` field whenever that field is present,
otherwise `1`.  Written from the spec's words, to be compared with `die`. -/
def dieClaimed (s : State) : Int :=
  match s.error with
  | none => 0
  | some e => e.exitCode.getD 1

/-- The outcome of evaluating one registered check inside `_check`'s loop:
the check either returned a boolean or threw. -/
inductive CheckResult where
  | ok (b : Bool)
  | threw
deriving DecidableEq, Repr

/-- `Graceful.prototype._check` (`src/server/index.js` lines 192-211).
Returns the boolean result together with the number of throwing checks
that were caught and logged.  The source wraps each `check()` call in
`try`/`catch`: a returned `false` exits the loop with `false`; a throw is
logged and the loop continues with the next check; reaching the end of the
loop returns `true`. -/
def checkRun : List CheckResult → Bool × Nat
  | [] => (true, 0)
  | .ok false :: _ => (false, 0)
  | .ok true :: rest => checkRun rest
  | .threw :: rest =>
      let r := checkRun rest
      (r.1, r.2 + 1)

end Graceful

namespace GracefulExpress

/-- A JavaScript value, as far as the argument guards of
`addActiveSocket`/`removeActiveSocket` can distinguish one. -/
inductive JsVal where
  | undefined
  | null
  | boolean (b : Bool)
  | number (n : Int)
  | str (s : String)
  | object (id : Nat)
  | func (id : Nat)
deriving DecidableEq, Repr

/-- JS truthiness. -/
def JsVal.truthy : JsVal → Bool
  | .undefined => false
  | .null => false
  | .boolean b => b
  | .number n => n != 0
  | .str s => s != ""
  | .object _ => true
  | .func _ => true

/-- JS `typeof`. -/
def JsVal.typeOf : JsVal → String
  | .undefined => "undefined"
  | .null => "object"
  | .boolean _ => "boolean"
  | .number _ => "number"
  | .str _ => "string"
  | .object _ => "object"
  | .func _ => "function"

/-- A proper (non-null) object. -/
def JsVal.isObject : JsVal → Bool
  | .object _ => true
  | _ => false

/-- `GracefulExpress.prototype.addActiveSocket`
(`src/server/graceful_express.js` lines 532-538): throw unless the
argument is a truthy object, else push it onto `_activeSockets` with no
duplicate check. -/
def addActiveSocket (socket : JsVal) (activeSockets : List JsVal) :
    Except String (List JsVal) :=
  if !socket.truthy || socket.typeOf != "object" then
    .error "socket must be an object"
  else
    .ok (activeSockets ++ [socket])

/-- `GracefulExpress.prototype.removeActiveSocket`
(`src/server/graceful_express.js` lines 542-557): throw unless the
argument is a truthy object, else remove its first occurrence from
`_activeSockets`. -/
def removeActiveSocket (socket : JsVal) (activeSockets : List JsVal) :
    Except String (List JsVal) :=
  if !socket.truthy || socket.typeOf != "object" then
    .error "socket must be an object"
  else
    .ok (eraseFirst socket activeSockets)

/-- The `_activeSockets` list a caller observes after invoking
`addActiveSocket` and catching any throw: unchanged on a throw. -/
def applyAdd (socket : JsVal) (activeSockets : List JsVal) : List JsVal :=
  match addActiveSocket socket activeSockets with
  | .ok l => l
  | .error _ => activeSockets

/-- The `_activeSockets` list a caller observes after invoking
`removeActiveSocket` and catching any throw: unchanged on a throw. -/
def applyRemove (socket : JsVal) (activeSockets : List JsVal) : List JsVal :=
  match removeActiveSocket socket activeSockets with
  | .ok l => l
  | .error _ => activeSockets

/-- The state of a `GracefulExpress` drainer (the second, current revision
in `src/server/graceful_express.js`).  Sockets and responses are
identified by numeric ids (reference identity).  `pending` is
instrumentation for the event system: one entry `(responseId, socketId)`
per armed single-fire completion handler (the `util.once` wrapper bound to
the response's `finish`/`close`/`end` events); `accepted` records every
socket the server's `connection` event ever delivered. -/
structure State where
  inProcessTest : Bool
  shuttingDown : Bool
  serverClosed : Bool
  server : Option Nat
  responses : List Nat
  sockets : List Nat
  activeSockets : List Nat
  pending : List (Nat × Nat)
  accepted : List Nat
deriving DecidableEq, Repr

/-- A freshly constructed production drainer (constructor lines 412-436):
no server yet, not shutting down, `inProcessTest` off, all tracking lists
empty. -/
def init : State :=
  { inProcessTest := false
    shuttingDown := false
    serverClosed := false
    server := none
    responses := []
    sockets := []
    activeSockets := []
    pending := []
    accepted := [] }

/-- The synthetic error the middleware passes to `next` for a request that
arrives during shutdown (`src/server/graceful_express.js` lines 485-487). -/
structure ExpressError where
  message : String
  statusCode : Int
  text : String
deriving DecidableEq, Repr

def rejectionError : ExpressError :=
  { message := "Server is shutting down; rejecting request"
    statusCode := 503
    text := "Please try again later; this server is shutting down" }

/-- How one `middleware` invocation ends: `nextPlain` is the
`inProcessTest` bypass (`return next()`); `rejected err` is
`return next(err)` — control goes to the error handler and the downstream
handler chain is not run; `runChain` is `d.run(next)` — the downstream
chain runs inside the request domain. -/
inductive Outcome where
  | nextPlain
  | rejected (err : ExpressError)
  | runChain
deriving DecidableEq, Repr

/-- Result of one `middleware` invocation: the updated drainer state, the
response's keep-alive flag (`res.shouldKeepAlive`; `_preventKeepAlive`
forces it to `false`) and the control-flow outcome. -/
structure MwResult where
  state : State
  shouldKeepAlive : Bool
  outcome : Outcome
deriving DecidableEq, Repr

/-- `GracefulExpress.prototype.middleware`
(`src/server/graceful_express.js` lines 463-499) for a request on socket
`sock` with response `rid` whose keep-alive flag is `keepAlive`:
in-process-test mode forwards immediately; otherwise the socket is pushed
onto `_activeSockets` (no duplicate check), the response is registered and
its single-fire completion handler armed, and then — if `shuttingDown` —
the response's keep-alive is forced off and a 503 error is passed to
`next`; otherwise the downstream chain runs inside a domain. -/
def middleware (s : State) (rid sock : Nat) (keepAlive : Bool) : MwResult :=
  if s.inProcessTest then ⟨s, keepAlive, .nextPlain⟩
  else
    let s1 := { s with
      activeSockets := s.activeSockets ++ [sock]
      responses := s.responses ++ [rid]
      pending := s.pending ++ [(rid, sock)] }
    if s1.shuttingDown then ⟨s1, false, .rejected rejectionError⟩
    else ⟨s1, keepAlive, .runChain⟩

/-- The single-fire completion handler armed by `middleware` (lines
474-480): when the first of the response's `finish`/`close`/`end` events
fires, remove one occurrence of the request's socket from `_activeSockets`
and the response from `_responses` (and disarm the handler). -/
def finishHandler (rid sock : Nat) (s : State) : State :=
  { s with
    activeSockets := eraseFirst sock s.activeSockets
    responses := eraseFirst rid s.responses
    pending := eraseFirst (rid, sock) s.pending }

/-- `GracefulExpress.prototype._isReadyForShutdown`
(`src/server/graceful_express.js` lines 623-634): `true` in
in-process-test mode; with no server reference, `true` exactly when no
tracked responses remain; with a server, `true` exactly when the server's
`close` event has fired. -/
def isReadyForShutdown (s : State) : Bool :=
  if s.inProcessTest then true
  else
    match s.server with
    | none => s.responses.length == 0
    | some _ => s.serverClosed

/-- The readiness check as the claim words it: a plain disjunction of
"no server reference", "zero responses in-flight", "close event fired",
with in-process-test mode always true.  Written from the spec's words, to
be compared with `isReadyForShutdown`. -/
def isReadyClaimed (s : State) : Bool :=
  s.inProcessTest || s.server.isNone || (s.responses.length == 0)
    || s.serverClosed

/-- One event-loop step of a drainer.  Each constructor is one handler of
the source: `connection` is `_onConnection`/`_addSocket` (server
`connection` event; sockets delivered this way are recorded in the ghost
`accepted` history); `request` is a `middleware` invocation in production
mode, on a socket the server has accepted and not yet closed; `finish` is
the armed single-fire completion handler; `socketClose` is the socket
`close` listener installed by `_addSocket` (`_removeSocket`);
`shutdownNotify` is `_onShutdown` and `serverClose` is `_onClose`. -/
inductive Step : State → State → Prop where
  | connection (s : State) (sock : Nat) :
      Step s { s with
        sockets := addIfAbsent sock s.sockets
        accepted := addIfAbsent sock s.accepted }
  | request (s : State) (rid sock : Nat) (keepAlive : Bool)
      (hTest : s.inProcessTest = false) (hSock : sock ∈ s.sockets) :
      Step s (middleware s rid sock keepAlive).state
  | finish (s : State) (rid sock : Nat)
      (hPending : (rid, sock) ∈ s.pending) :
      Step s (finishHandler rid sock s)
  | socketClose (s : State) (sock : Nat) :
      Step s { s with sockets := eraseFirst sock s.sockets }
  | shutdownNotify (s : State) :
      Step s { s with shuttingDown := true }
  | serverClose (s : State) :
      Step s { s with serverClosed := true }

/-- States reachable from a freshly constructed drainer. -/
inductive Reach : State → Prop where
  | init : Reach GracefulExpress.init
  | step {s t : State} : Reach s → Step s t → Reach t

/-- The socket-accounting invariant that does hold: every tracked socket
and every active socket was delivered by the server's `connection` event,
and each socket's occurrence count in `_activeSockets` equals the number
of armed completion handlers for requests on it. -/
def Inv (s : State) : Prop :=
  (∀ x ∈ s.sockets, x ∈ s.accepted) ∧
  (∀ x ∈ s.activeSockets, x ∈ s.accepted) ∧
  (∀ sock : Nat,
    countOcc sock s.activeSockets = countOcc sock (s.pending.map Prod.snd))

/-- The drainer state after the server accepts socket `0` and one request
(response id `1`) starts on it. -/
def stateOneRequest : State :=
  { init with
    sockets := [0]
    accepted := [0]
    responses := [1]
    activeSockets := [0]
    pending := [(1, 0)] }

/-- The drainer state after the server accepts socket `0` and two
concurrent (pipelined) requests, response ids `1` and `2`, start on it:
`_activeSockets` holds the socket once per request, `_sockets` holds it
once. -/
def stateTwoRequests : State :=
  { init with
    sockets := [0]
    accepted := [0]
    responses := [1, 2]
    activeSockets := [0, 0]
    pending := [(1, 0), (2, 0)] }

end GracefulExpress

namespace Master

/-- The numeric options accepted by the `Master` constructor
(`src/server/master.js` lines 34-71). -/
structure MOptions where
  spinTimeout : Option Int := none
  delayStart : Option Int := none
  pollInterval : Option Int := none
  killTimeout : Option Int := none
deriving DecidableEq, Repr

/-- One entry of `this._workers`: pid, worker id and fork time
(`_startWorker`, lines 157-165). -/
structure WorkerRecord where
  pid : Nat
  id : Nat
  start : Int
deriving DecidableEq, Repr

/-- The state of a `Master` supervisor. -/
structure State where
  workers : List WorkerRecord
  shuttingDown : Bool
  spinTimeout : Int
  delayStart : Int
  pollInterval : Int
  killTimeout : Int
deriving DecidableEq, Repr

/-- The `Master` constructor (`src/server/master.js` lines 34-71):
`spinTimeout || 5000`, `delayStart || 60 * 1000`, `pollInterval || 500`,
`killTimeout || 7000`, empty worker map, not shutting down. -/
def init (o : MOptions) : State :=
  { workers := []
    shuttingDown := false
    spinTimeout := jsOrInt o.spinTimeout 5000
    delayStart := jsOrInt o.delayStart (60 * 1000)
    pollInterval := jsOrInt o.pollInterval 500
    killTimeout := jsOrInt o.killTimeout 7000 }

/-- `Master.prototype.setGraceful` (`src/server/master.js` lines 87-98),
restricted to its effect on the coordinator:
`this.graceful.timeout = this.killTimeout + this.pollInterval * 2;`
(it also registers `_onShutdown` as a shutdown listener and
`_isReadyForShutdown` as a readiness check). -/
def setGraceful (m : State) (g : Graceful.State) : Graceful.State :=
  { g with timeout := m.killTimeout + m.pollInterval * 2 }

/-- What `_restartWorker` does about replacing the dead worker. -/
inductive RestartAction where
  | noFork
  | forkImmediate
  | forkDelayed (afterMs : Int)
deriving DecidableEq, Repr

/-- Result of one `_restartWorker` invocation: the worker map after the
`delete`, the replacement decision, and whether the "died after less than
spin timeout" error was logged. -/
structure RestartResult where
  workers : List WorkerRecord
  action : RestartAction
  loggedSpinError : Bool
deriving DecidableEq, Repr

/-- `this._workers[pid]` on an association list. -/
def findPid (pid : Nat) : List WorkerRecord → Option WorkerRecord
  | [] => none
  | r :: rest => if r.pid = pid then some r else findPid pid rest

/-- `delete this._workers[pid]` on an association list. -/
def erasePid (pid : Nat) : List WorkerRecord → List WorkerRecord
  | [] => []
  | r :: rest => if r.pid = pid then rest else r :: erasePid pid rest

/-- `Master.prototype._restartWorker` (`src/server/master.js` lines
170-201): look up and delete the worker's record; if shutting down, do
nothing more; otherwise compute `delta = now - start` (with `start = now`
when no record was found) and either log the spin-timeout error and
schedule the replacement fork after `delayStart`, or fork a replacement
immediately. -/
def restartWorker (m : State) (pid : Nat) (now : Int) : RestartResult :=
  let data := findPid pid m.workers
  let remaining := erasePid pid m.workers
  if m.shuttingDown then ⟨remaining, .noFork, false⟩
  else
    let start := match data with | some d => d.start | none => now
    let delta := now - start
    if data.isSome && decide (delta < m.spinTimeout) then
      ⟨remaining, .forkDelayed m.delayStart, true⟩
    else
      ⟨remaining, .forkImmediate, false⟩

/-- A supervisor with default configuration tracking one worker (pid 5,
worker id 1, forked at time 0). -/
def exampleState : State :=
  { init {} with workers := [⟨5, 1, 0⟩] }

end Master

/-! ## List lemmas -/

theorem countOcc_append {α : Type} [DecidableEq α] (x : α) (l1 l2 : List α) :
    countOcc x (l1 ++ l2) = countOcc x l1 + countOcc x l2 := by
  induction l1 with
  | nil => simp [countOcc]
  | cons y ys ih => simp [countOcc, ih]; omega

theorem countOcc_pos_of_mem {α : Type} [DecidableEq α] {x : α} {l : List α}
    (h : x ∈ l) : 0 < countOcc x l := by
  induction l with
  | nil => cases h
  | cons y ys ih =>
    rcases List.mem_cons.mp h with h1 | h1
    · simp [countOcc, h1]
    · have := ih h1
      simp only [countOcc]
      omega

theorem mem_of_countOcc_pos {α : Type} [DecidableEq α] {x : α} {l : List α}
    (h : 0 < countOcc x l) : x ∈ l := by
  induction l with
  | nil => simp [countOcc] at h
  | cons y ys ih =>
    by_cases hxy : y = x
    · exact List.mem_cons.mpr (Or.inl hxy.symm)
    · simp only [countOcc, if_neg hxy, Nat.zero_add] at h
      exact List.mem_cons.mpr (Or.inr (ih h))

theorem countOcc_eraseFirst_self {α : Type} [DecidableEq α] {x : α}
    {l : List α} (h : x ∈ l) :
    countOcc x (eraseFirst x l) + 1 = countOcc x l := by
  induction l with
  | nil => cases h
  | cons y ys ih =>
    by_cases hxy : y = x
    · simp [eraseFirst, countOcc, hxy]; omega
    · have hmem : x ∈ ys := by
        rcases List.mem_cons.mp h with h1 | h1
        · exact absurd h1.symm hxy
        · exact h1
      simp only [eraseFirst, if_neg hxy, countOcc, if_neg hxy]
      have := ih hmem
      omega

theorem countOcc_eraseFirst_ne {α : Type} [DecidableEq α] {x y : α}
    (l : List α) (h : y ≠ x) :
    countOcc y (eraseFirst x l) = countOcc y l := by
  induction l with
  | nil => rfl
  | cons z zs ih =>
    by_cases hzx : z = x
    · have hzy : ¬ x = y := fun hxy => h (hxy ▸ rfl)
      simp [eraseFirst, countOcc, hzx, hzy]
    · simp [eraseFirst, countOcc, hzx, ih]

theorem mem_of_mem_eraseFirst {α : Type} [DecidableEq α] {x y : α}
    {l : List α} (h : y ∈ eraseFirst x l) : y ∈ l := by
  induction l with
  | nil => cases h
  | cons z zs ih =>
    by_cases hzx : z = x
    · simp only [eraseFirst, if_pos hzx] at h
      exact List.mem_cons.mpr (Or.inr h)
    · simp only [eraseFirst, if_neg hzx] at h
      rcases List.mem_cons.mp h with h1 | h1
      · exact List.mem_cons.mpr (Or.inl h1)
      · exact List.mem_cons.mpr (Or.inr (ih h1))

theorem mem_addIfAbsent {α : Type} [DecidableEq α] {x a : α} {l : List α} :
    x ∈ addIfAbsent a l ↔ x ∈ l ∨ x = a := by
  unfold addIfAbsent
  by_cases ha : a ∈ l
  · simp only [if_pos ha]
    constructor
    · exact Or.inl
    · rintro (h | rfl)
      · exact h
      · exact ha
  · simp [if_neg ha, List.mem_append]

theorem countOcc_map_snd_eraseFirst_self {α β : Type} [DecidableEq α]
    [DecidableEq β] {p : α × β} {l : List (α × β)} (h : p ∈ l) :
    countOcc p.2 ((eraseFirst p l).map Prod.snd) + 1
      = countOcc p.2 (l.map Prod.snd) := by
  induction l with
  | nil => cases h
  | cons q qs ih =>
    by_cases hqp : q = p
    · simp [eraseFirst, countOcc, hqp]; omega
    · have hmem : p ∈ qs := by
        rcases List.mem_cons.mp h with h1 | h1
        · exact absurd h1.symm hqp
        · exact h1
      simp only [eraseFirst, if_neg hqp, List.map_cons, countOcc]
      have := ih hmem
      omega

theorem countOcc_map_snd_eraseFirst_ne {α β : Type} [DecidableEq α]
    [DecidableEq β] (p : α × β) (l : List (α × β)) {t : β} (h : t ≠ p.2) :
    countOcc t ((eraseFirst p l).map Prod.snd)
      = countOcc t (l.map Prod.snd) := by
  induction l with
  | nil => rfl
  | cons q qs ih =>
    by_cases hqp : q = p
    · have hps : ¬ p.2 = t := fun h2 => h h2.symm
      simp [eraseFirst, countOcc, hqp, hps]
    · simp [eraseFirst, countOcc, hqp, ih]

theorem snd_mem_map_of_mem {α β : Type} {p : α × β} {l : List (α × β)}
    (h : p ∈ l) : p.2 ∈ l.map Prod.snd :=
  List.mem_map.mpr ⟨p, h, rfl⟩

/-! ## C1, C2, C7: the shutdown coordinator -/

namespace Graceful

/-- A later `shutdown` call on an already-shutting-down coordinator changes
nothing. -/
theorem shutdown_latched (err : Option JsError) (s : State)
    (h : s.shuttingDown = true) : shutdown err s = s := by
  simp [shutdown, h]

theorem shutdown_shuttingDown (err : Option JsError) (s : State)
    (h : s.shuttingDown = false) : (shutdown err s).shuttingDown = true := by
  cases err <;> simp [shutdown, sendError, h]

/-- Folding further `shutdown` calls over an already-latched state is the
identity. -/
theorem foldl_shutdown_latched (s : State) (h : s.shuttingDown = true) :
    ∀ es : List (Option JsError),
      List.foldl (fun st e => shutdown e st) s es = s := by
  intro es
  induction es with
  | nil => rfl
  | cons e rest ih => simpa [shutdown_latched e s h] using ih

end Graceful

/-- C1: on a coordinator that is not yet shutting down, a sequence of two
or more `shutdown(err, info)` calls behaves exactly like its first call
alone: the first call latches `shuttingDown`, stores its error, invokes the
messenger at most once (exactly when an error was passed), runs the
`shutdown` event fan-out exactly once and begins the exit sequence; every
later call leaves the coordinator state unchanged. -/
theorem C1_shutdown_first_call_only (s : Graceful.State)
    (h : s.shuttingDown = false)
    (e1 : Option Graceful.JsError) (rest : List (Option Graceful.JsError)) :
    List.foldl (fun st e => Graceful.shutdown e st) s (e1 :: rest)
        = Graceful.shutdown e1 s ∧
    (Graceful.shutdown e1 s).shuttingDown = true ∧
    (Graceful.shutdown e1 s).error = e1 ∧
    (Graceful.shutdown e1 s).messengerCalls
        = s.messengerCalls + (if e1.isSome then 1 else 0) ∧
    (Graceful.shutdown e1 s).shutdownEmits = s.shutdownEmits + 1 ∧
    (Graceful.shutdown e1 s).exitCalls = s.exitCalls + 1 := by
  refine ⟨?_, Graceful.shutdown_shuttingDown e1 s h, ?_, ?_, ?_, ?_⟩
  · simpa using Graceful.foldl_shutdown_latched _
      (Graceful.shutdown_shuttingDown e1 s h) rest
  all_goals cases e1 <;> simp [Graceful.shutdown, Graceful.sendError, h]

/-- Witness for C1 at a concrete coordinator and a concrete sequence of
three `shutdown` calls. -/
theorem C1_witness :
    List.foldl (fun st e => Graceful.shutdown e st) (Graceful.init {})
        [some ⟨some 3⟩, none, some ⟨none⟩]
      = Graceful.shutdown (some ⟨some 3⟩) (Graceful.init {}) ∧
    (Graceful.shutdown (some ⟨some 3⟩) (Graceful.init {})).shuttingDown = true ∧
    (Graceful.shutdown (some ⟨some 3⟩) (Graceful.init {})).error = some ⟨some 3⟩ ∧
    (Graceful.shutdown (some ⟨some 3⟩) (Graceful.init {})).messengerCalls
        = (Graceful.init {}).messengerCalls
          + (if (some (⟨some 3⟩ : Graceful.JsError)).isSome then 1 else 0) ∧
    (Graceful.shutdown (some ⟨some 3⟩) (Graceful.init {})).shutdownEmits
        = (Graceful.init {}).shutdownEmits + 1 ∧
    (Graceful.shutdown (some ⟨some 3⟩) (Graceful.init {})).exitCalls
        = (Graceful.init {}).exitCalls + 1 :=
  C1_shutdown_first_call_only (Graceful.init {}) rfl (some ⟨some 3⟩)
    [none, some ⟨none⟩]

/-- C2 counterexample: an error whose `exitCode` field is present and equal
to `0`.  The claim dictates exit code `0` (the field is present), but
`_die` computes `this.error.exitCode || 1`, where `0` is falsy, so the
process exits with `1`. -/
theorem C2_counterexample :
    Graceful.die { Graceful.init {} with error := some ⟨some 0⟩ } = 1 ∧
    Graceful.dieClaimed { Graceful.init {} with error := some ⟨some 0⟩ } = 0 := by
  constructor <;> rfl

/-- C2 amended: the exit code is `0` when no error was stored; otherwise it
is the stored error's `exitCode` field when that field is present and
nonzero, and `1` otherwise.  Equivalently, `die` agrees with the claimed
rule on every state whose stored `exitCode` is not the (falsy) value `0`. -/
theorem C2_exit_code (s : Graceful.State)
    (h : ∀ e, s.error = some e → e.exitCode ≠ some 0) :
    Graceful.die s = Graceful.dieClaimed s ∧
    (s.error = none → Graceful.die s = 0) ∧
    (∀ e c, s.error = some e → e.exitCode = some c → Graceful.die s = c) ∧
    (∀ e, s.error = some e → e.exitCode = none → Graceful.die s = 1) := by
  refine ⟨?_, ?_, ?_, ?_⟩
  · cases herr : s.error with
    | none => simp [Graceful.die, Graceful.dieClaimed, herr]
    | some e =>
      cases hc : e.exitCode with
      | none => simp [Graceful.die, Graceful.dieClaimed, herr, hc, jsOrInt]
      | some c =>
        have hc0 : c ≠ 0 := by
          intro h0
          exact (h e herr) (h0 ▸ hc)
        simp [Graceful.die, Graceful.dieClaimed, herr, hc, jsOrInt, hc0]
  · intro herr; simp [Graceful.die, herr]
  · intro e c herr hc
    have hc0 : c ≠ 0 := by
      intro h0
      exact (h e herr) (h0 ▸ hc)
    simp [Graceful.die, herr, hc, jsOrInt, hc0]
  · intro e herr hc; simp [Graceful.die, herr, hc, jsOrInt]

/-- Witness for C2 at a concrete state storing an error with
`exitCode = 7`. -/
theorem C2_witness :
    Graceful.die { Graceful.init {} with error := some ⟨some 7⟩ }
      = Graceful.dieClaimed { Graceful.init {} with error := some ⟨some 7⟩ } ∧
    (∀ e c,
      ({ Graceful.init {} with error := some ⟨some 7⟩ } : Graceful.State).error
          = some e →
      e.exitCode = some c →
      Graceful.die { Graceful.init {} with error := some ⟨some 7⟩ } = c) :=
  by
    have h := C2_exit_code { Graceful.init {} with error := some ⟨some 7⟩ }
      (by intro e he; cases he; decide)
    exact ⟨h.1, h.2.2.1⟩

/-- C7: the claim (force timeout defaults to 5000ms whenever the `timeout`
option is absent, independent of `pollInterval`; `pollInterval` defaults to
250ms) holds for the constructor in `src/server/index.js`, but the
revision in `src/server/graceful.js` (line 36) reads
`options.pollInterval` when defaulting `this.timeout`: constructed with
`{pollInterval: 100}` and no `timeout`, its force timeout is 100ms, not
5000ms. -/
theorem C7_graceful_timeout_bug :
    (Graceful.initRev { pollInterval := some 100 }).timeout = 100 ∧
    (Graceful.init { pollInterval := some 100 }).timeout = 5000 ∧
    (Graceful.init {}).pollInterval = 250 ∧
    (Graceful.initRev {}).pollInterval = 250 ∧
    (Graceful.initRev {}).timeout = 5000 :=
  ⟨rfl, rfl, rfl, rfl, rfl⟩

/-! ## C3, C4, C6, C10: the connection drainer -/

namespace GracefulExpress

/-- In production mode the state effect of one `middleware` invocation is
the same whether or not the drainer is shutting down: push the socket,
register the response, arm the completion handler. -/
theorem middleware_state (s : State) (rid sock : Nat) (keepAlive : Bool)
    (hTest : s.inProcessTest = false) :
    (middleware s rid sock keepAlive).state
      = { s with
          activeSockets := s.activeSockets ++ [sock]
          responses := s.responses ++ [rid]
          pending := s.pending ++ [(rid, sock)] } := by
  simp only [middleware, hTest, Bool.false_eq_true, if_false]
  split <;> rfl

theorem inv_init : Inv init := by
  refine ⟨?_, ?_, ?_⟩ <;> intro x <;> simp [init, countOcc]

/-- Every drainer event preserves the socket-accounting invariant. -/
theorem inv_step {s t : State} (hInv : Inv s) (hStep : Step s t) : Inv t := by
  obtain ⟨hS, hA, hC⟩ := hInv
  cases hStep with
  | connection sock =>
    refine ⟨?_, ?_, hC⟩
    · intro x hx
      rcases mem_addIfAbsent.mp hx with h1 | rfl
      · exact mem_addIfAbsent.mpr (Or.inl (hS x h1))
      · exact mem_addIfAbsent.mpr (Or.inr rfl)
    · intro x hx
      exact mem_addIfAbsent.mpr (Or.inl (hA x hx))
  | request rid sock keepAlive hTest hSock =>
    rw [middleware_state s rid sock keepAlive hTest]
    refine ⟨hS, ?_, ?_⟩
    · intro x hx
      rcases List.mem_append.mp hx with h1 | h1
      · exact hA x h1
      · have hx0 : x = sock := by simpa using h1
        exact hx0 ▸ hS sock hSock
    · intro t0
      simp only [List.map_append]
      rw [countOcc_append, countOcc_append, hC t0]
      rfl
  | finish rid sock hPending =>
    refine ⟨hS, ?_, ?_⟩
    · intro x hx
      exact hA x (mem_of_mem_eraseFirst hx)
    · intro t0
      by_cases ht : t0 = sock
      · subst ht
        have hmemsnd : t0 ∈ s.pending.map Prod.snd :=
          snd_mem_map_of_mem hPending
        have hposa : 0 < countOcc t0 s.activeSockets :=
          (hC t0) ▸ countOcc_pos_of_mem hmemsnd
        have hmema : t0 ∈ s.activeSockets := mem_of_countOcc_pos hposa
        have h1 := countOcc_eraseFirst_self hmema
        have h2 : countOcc t0
              (List.map Prod.snd (eraseFirst (rid, t0) s.pending)) + 1
            = countOcc t0 (List.map Prod.snd s.pending) :=
          countOcc_map_snd_eraseFirst_self hPending
        have h3 := hC t0
        simp only [finishHandler]
        omega
      · simp only [finishHandler]
        rw [countOcc_eraseFirst_ne _ ht,
          countOcc_map_snd_eraseFirst_ne (rid, sock) s.pending ht, hC t0]
  | socketClose sock =>
    refine ⟨?_, hA, hC⟩
    intro x hx
    exact hS x (mem_of_mem_eraseFirst hx)
  | shutdownNotify => exact ⟨hS, hA, hC⟩
  | serverClose => exact ⟨hS, hA, hC⟩

/-- The socket-accounting invariant holds at every reachable state. -/
theorem inv_of_reach {s : State} (h : Reach s) : Inv s := by
  induction h with
  | init => exact inv_init
  | step _ hstep ih => exact inv_step ih hstep

theorem reach_stateOneRequest : Reach stateOneRequest := by
  have h1 : Reach { init with
      sockets := addIfAbsent 0 init.sockets
      accepted := addIfAbsent 0 init.accepted } :=
    Reach.step Reach.init (Step.connection init 0)
  have h2 := Reach.step h1 (Step.request _ 1 0 true (by decide) (by decide))
  have heq : (middleware { init with
      sockets := addIfAbsent 0 init.sockets
      accepted := addIfAbsent 0 init.accepted } 1 0 true).state
        = stateOneRequest := by decide
  exact heq ▸ h2

theorem reach_stateTwoRequests : Reach stateTwoRequests := by
  have h2 := Reach.step reach_stateOneRequest
    (Step.request stateOneRequest 2 0 true (by decide) (by decide))
  have heq : (middleware stateOneRequest 2 0 true).state = stateTwoRequests :=
    by decide
  exact heq ▸ h2

end GracefulExpress

/-- C3 counterexample: after the server accepts one keepalive socket and
two concurrent (pipelined) requests start on it, the socket occurs twice
in `_activeSockets` but only once in `_sockets` — a reachable drainer
state at which `activeSockets` is not a sub-multiset of `sockets`. -/
theorem C3_counterexample :
    GracefulExpress.Reach GracefulExpress.stateTwoRequests ∧
    countOcc 0 GracefulExpress.stateTwoRequests.sockets
      < countOcc 0 GracefulExpress.stateTwoRequests.activeSockets :=
  ⟨GracefulExpress.reach_stateTwoRequests, by decide⟩

/-- C3 amended: at every reachable drainer state, every socket occurring
in `activeSockets` was delivered by the server's `connection` event (its
support lies in the accepted-socket history; `activeSockets` need not be a
sub-multiset of `sockets`, which holds each accepted socket at most once
while `activeSockets` holds one occurrence per concurrent request); and
whenever a request's single-fire completion handler runs, the occurrence
count of that request's socket in `activeSockets` decreases by exactly 1,
leaving the counts of all other sockets unchanged. -/
theorem C3_socket_accounting (s : GracefulExpress.State)
    (h : GracefulExpress.Reach s) :
    (∀ x ∈ s.activeSockets, x ∈ s.accepted) ∧
    (∀ rid sock, (rid, sock) ∈ s.pending →
      countOcc sock
          (GracefulExpress.finishHandler rid sock s).activeSockets + 1
        = countOcc sock s.activeSockets ∧
      (∀ t, t ≠ sock →
        countOcc t (GracefulExpress.finishHandler rid sock s).activeSockets
          = countOcc t s.activeSockets)) := by
  obtain ⟨hS, hA, hC⟩ := GracefulExpress.inv_of_reach h
  refine ⟨hA, ?_⟩
  intro rid sock hp
  have hmemsnd : sock ∈ s.pending.map Prod.snd := snd_mem_map_of_mem hp
  have hposa : 0 < countOcc sock s.activeSockets :=
    (hC sock) ▸ countOcc_pos_of_mem hmemsnd
  have hmema : sock ∈ s.activeSockets := mem_of_countOcc_pos hposa
  refine ⟨?_, ?_⟩
  · simpa [GracefulExpress.finishHandler] using countOcc_eraseFirst_self hmema
  · intro t ht
    simpa [GracefulExpress.finishHandler] using
      countOcc_eraseFirst_ne s.activeSockets ht

/-- Witness for C3 at the concrete reachable state with one in-flight
request on socket `0`. -/
theorem C3_witness :
    countOcc 0 (GracefulExpress.finishHandler 1 0
        GracefulExpress.stateOneRequest).activeSockets + 1
      = countOcc 0 GracefulExpress.stateOneRequest.activeSockets ∧
    countOcc 5 (GracefulExpress.finishHandler 1 0
        GracefulExpress.stateOneRequest).activeSockets
      = countOcc 5 GracefulExpress.stateOneRequest.activeSockets :=
  have h := C3_socket_accounting GracefulExpress.stateOneRequest
    GracefulExpress.reach_stateOneRequest
  ⟨(h.2 1 0 (by decide)).1, (h.2 1 0 (by decide)).2 5 (by decide)⟩

/-- C4: in production mode, a request whose middleware invocation happens
after the drainer received the shutdown notification gets a forced
connection-close signal (`res.shouldKeepAlive = false`) and its `next` is
called with an error carrying `statusCode = 503` and the text
"Please try again later; this server is shutting down"; the downstream
handler chain is not run (the outcome is `rejected`, not `runChain`). -/
theorem C4_reject_after_shutdown (s : GracefulExpress.State)
    (rid sock : Nat) (keepAlive : Bool)
    (hTest : s.inProcessTest = false) (hDown : s.shuttingDown = true) :
    (GracefulExpress.middleware s rid sock keepAlive).outcome
        = .rejected GracefulExpress.rejectionError ∧
    (GracefulExpress.middleware s rid sock keepAlive).shouldKeepAlive
        = false ∧
    GracefulExpress.rejectionError.statusCode = 503 ∧
    GracefulExpress.rejectionError.text
        = "Please try again later; this server is shutting down" := by
  refine ⟨?_, ?_, rfl, rfl⟩ <;>
    simp [GracefulExpress.middleware, hTest, hDown]

/-- Witness for C4 on a freshly constructed drainer that has received the
shutdown notification. -/
theorem C4_witness :
    (GracefulExpress.middleware
        { GracefulExpress.init with shuttingDown := true } 1 0 true).outcome
      = .rejected GracefulExpress.rejectionError ∧
    (GracefulExpress.middleware
        { GracefulExpress.init with shuttingDown := true } 1 0 true).shouldKeepAlive
      = false ∧
    GracefulExpress.rejectionError.statusCode = 503 ∧
    GracefulExpress.rejectionError.text
      = "Please try again later; this server is shutting down" :=
  C4_reject_after_shutdown { GracefulExpress.init with shuttingDown := true }
    1 0 true rfl rfl

/-- C6 counterexample: a drainer holding a server reference, with zero
in-flight responses, whose server `close` event has not fired.  The
claim's disjunction ("true if no server is held, OR zero responses remain,
OR the close event fired") yields true, but `_isReadyForShutdown` returns
false: with a server present, only `_serverClosed` is consulted. -/
theorem C6_counterexample :
    GracefulExpress.isReadyForShutdown
        { GracefulExpress.init with server := some 0 } = false ∧
    GracefulExpress.isReadyClaimed
        { GracefulExpress.init with server := some 0 } = true :=
  ⟨rfl, rfl⟩

/-- C6 amended: in in-process-test mode the readiness check returns true;
otherwise, if no server reference is held it returns true exactly when
zero tracked responses remain in-flight, and if a server reference is held
it returns true exactly when the server's close event has fired. -/
theorem C6_readiness_check (s : GracefulExpress.State) :
    (s.inProcessTest = true → GracefulExpress.isReadyForShutdown s = true) ∧
    (s.inProcessTest = false → s.server = none →
      (GracefulExpress.isReadyForShutdown s = true ↔ s.responses = [])) ∧
    (∀ srv, s.inProcessTest = false → s.server = some srv →
      GracefulExpress.isReadyForShutdown s = s.serverClosed) := by
  refine ⟨?_, ?_, ?_⟩
  · intro h
    simp [GracefulExpress.isReadyForShutdown, h]
  · intro h hs
    simp [GracefulExpress.isReadyForShutdown, h, hs, List.length_eq_zero]
  · intro srv h hs
    simp [GracefulExpress.isReadyForShutdown, h, hs]

/-- Witness for C6: with a held server reference and the close event
fired, the readiness check reports the `serverClosed` flag. -/
theorem C6_witness :
    GracefulExpress.isReadyForShutdown
        { GracefulExpress.init with server := some 0, serverClosed := true }
      = ({ GracefulExpress.init with
            server := some 0, serverClosed := true } :
          GracefulExpress.State).serverClosed :=
  (C6_readiness_check
    { GracefulExpress.init with server := some 0, serverClosed := true }).2.2
    0 rfl rfl

/-- C10: `addActiveSocket` and `removeActiveSocket` throw
`"socket must be an object"` whenever the argument is missing
(`undefined`), `null`, or not an object (a boolean, number, string or
function), and in that case the tracked `_activeSockets` list is left
unchanged. -/
theorem C10_socket_arg_guard (v : GracefulExpress.JsVal)
    (l : List GracefulExpress.JsVal) (h : v.isObject = false) :
    GracefulExpress.addActiveSocket v l
        = .error "socket must be an object" ∧
    GracefulExpress.removeActiveSocket v l
        = .error "socket must be an object" ∧
    GracefulExpress.applyAdd v l = l ∧
    GracefulExpress.applyRemove v l = l := by
  have hguard : (!v.truthy || v.typeOf != "object") = true := by
    cases v with
    | undefined => rfl
    | null => rfl
    | boolean b => cases b <;> rfl
    | number n =>
      show (!GracefulExpress.JsVal.truthy (.number n) || true) = true
      exact Bool.or_true _
    | str s =>
      show (!GracefulExpress.JsVal.truthy (.str s) || true) = true
      exact Bool.or_true _
    | object id => exact absurd h (by simp [GracefulExpress.JsVal.isObject])
    | func id => rfl
  refine ⟨?_, ?_, ?_, ?_⟩ <;>
    simp [GracefulExpress.addActiveSocket, GracefulExpress.removeActiveSocket,
      GracefulExpress.applyAdd, GracefulExpress.applyRemove, hguard]

/-- Witness for C10 with a `null` socket argument and a nonempty
`_activeSockets` list. -/
theorem C10_witness :
    GracefulExpress.addActiveSocket .null [.object 3]
        = .error "socket must be an object" ∧
    GracefulExpress.removeActiveSocket .null [.object 3]
        = .error "socket must be an object" ∧
    GracefulExpress.applyAdd .null [.object 3] = [.object 3] ∧
    GracefulExpress.applyRemove .null [.object 3] = [.object 3] :=
  C10_socket_arg_guard .null [.object 3] rfl

/-! ## C5: throwing readiness checks -/

namespace Graceful

/-- The boolean `_check` computes: false exactly when some check returned
`false`; a throwing check is skipped, not treated as a failure. -/
theorem checkRun_fst (l : List CheckResult) :
    (checkRun l).1 = l.all (fun c => c != CheckResult.ok false) := by
  induction l with
  | nil => rfl
  | cons c rest ih =>
    cases c with
    | ok b => cases b <;> simp [checkRun, ih]
    | threw => simp [checkRun, ih]

/-- `_check` catches and logs exactly the throws of the checks its loop
actually evaluates: those before the first check returning `false`. -/
theorem checkRun_snd (l : List CheckResult) :
    (checkRun l).2
      = countOcc CheckResult.threw
          (l.takeWhile (fun c => c != CheckResult.ok false)) := by
  induction l with
  | nil => rfl
  | cons c rest ih =>
    cases c with
    | ok b => cases b <;> simp [checkRun, List.takeWhile, countOcc, ih]
    | threw => simp [checkRun, List.takeWhile, countOcc, ih]; omega

end Graceful

/-- C5 counterexample: a check list consisting of a single throwing check.
The claim says the conjunction evaluates to false (the throwing check is
treated as "not ready"), but `_check` catches the throw, logs it, and —
with no check having returned false — the loop completes and `_check`
returns true. -/
theorem C5_counterexample :
    (Graceful.checkRun [Graceful.CheckResult.threw]).1 = true ∧
    (Graceful.checkRun [Graceful.CheckResult.threw]).2 = 1 :=
  ⟨rfl, rfl⟩

/-- C5 amended: for every check list containing a throwing check, each
throw the loop reaches is caught and logged per invocation (counted in the
second component: one log per throw occurring before the first check that
returns false), the poll loop continues uninterrupted, and the throwing
check is treated as passed — the conjunction evaluates to false exactly
when some check returns false. -/
theorem C5_check_throw_skipped (l : List Graceful.CheckResult)
    (h : Graceful.CheckResult.threw ∈ l) :
    (Graceful.checkRun l).1
        = l.all (fun c => c != Graceful.CheckResult.ok false) ∧
    (Graceful.checkRun l).2
        = countOcc Graceful.CheckResult.threw
            (l.takeWhile (fun c => c != Graceful.CheckResult.ok false)) :=
  ⟨Graceful.checkRun_fst l, Graceful.checkRun_snd l⟩

/-- Witness for C5 on the concrete check list `[threw, ok true]`. -/
theorem C5_witness :
    (Graceful.checkRun
        [Graceful.CheckResult.threw, Graceful.CheckResult.ok true]).1
      = [Graceful.CheckResult.threw, Graceful.CheckResult.ok true].all
          (fun c => c != Graceful.CheckResult.ok false) ∧
    (Graceful.checkRun
        [Graceful.CheckResult.threw, Graceful.CheckResult.ok true]).2
      = countOcc Graceful.CheckResult.threw
          ([Graceful.CheckResult.threw, Graceful.CheckResult.ok true].takeWhile
            (fun c => c != Graceful.CheckResult.ok false)) :=
  C5_check_throw_skipped
    [Graceful.CheckResult.threw, Graceful.CheckResult.ok true] (by decide)

/-! ## C8, C9: the worker supervisor -/

namespace Master

/-- Membership in the worker map after `delete this._workers[pid]`, given
that pids are unique keys (they are keys of a JS object). -/
theorem mem_erasePid_iff {l : List WorkerRecord} {pid : Nat}
    (hNodup : (l.map WorkerRecord.pid).Nodup) (r : WorkerRecord) :
    r ∈ erasePid pid l ↔ (r ∈ l ∧ r.pid ≠ pid) := by
  induction l with
  | nil => simp [erasePid]
  | cons w ws ih =>
    simp only [List.map_cons, List.nodup_cons] at hNodup
    obtain ⟨hw, hws⟩ := hNodup
    by_cases hwp : w.pid = pid
    · simp only [erasePid, if_pos hwp]
      constructor
      · intro hr
        refine ⟨List.mem_cons.mpr (Or.inr hr), ?_⟩
        intro hrp
        exact hw ((hrp.trans hwp.symm) ▸ List.mem_map_of_mem WorkerRecord.pid hr)
      · rintro ⟨hmem, hne⟩
        rcases List.mem_cons.mp hmem with rfl | hmem2
        · exact absurd hwp hne
        · exact hmem2
    · simp only [erasePid, if_neg hwp]
      constructor
      · intro hr
        rcases List.mem_cons.mp hr with rfl | hr2
        · exact ⟨List.mem_cons.mpr (Or.inl rfl), hwp⟩
        · obtain ⟨hmem, hne⟩ := (ih hws).mp hr2
          exact ⟨List.mem_cons.mpr (Or.inr hmem), hne⟩
      · rintro ⟨hmem, hne⟩
        rcases List.mem_cons.mp hmem with rfl | hmem2
        · exact List.mem_cons.mpr (Or.inl rfl)
        · exact List.mem_cons.mpr (Or.inr ((ih hws).mpr ⟨hmem2, hne⟩))

/-- In every branch, `_restartWorker` leaves the worker map with the dead
worker's record deleted. -/
theorem restartWorker_workers (m : State) (pid : Nat) (now : Int) :
    (restartWorker m pid now).workers = erasePid pid m.workers := by
  simp only [restartWorker]
  split
  · rfl
  · split <;> rfl

end Master

/-- C8 counterexample: a coordinator constructed with `timeout: 100000`
and a supervisor with default configuration (`killTimeout` 7000,
`pollInterval` 500).  `setGraceful` overwrites the coordinator's force
timeout with `7000 + 2 * 500 = 8000`, which is below the value it had
before registration — contradicting "never decreased". -/
theorem C8_counterexample :
    (Graceful.init { timeout := some 100000 }).timeout = 100000 ∧
    (Master.setGraceful (Master.init {})
        (Graceful.init { timeout := some 100000 })).timeout = 8000 ∧
    (Master.setGraceful (Master.init {})
        (Graceful.init { timeout := some 100000 })).timeout
      < (Graceful.init { timeout := some 100000 }).timeout :=
  ⟨rfl, rfl, by decide⟩

/-- C8 amended: when a supervisor registers a coordinator via
`setGraceful`, it overwrites the coordinator's force timeout with exactly
`killTimeout + 2 × pollInterval` — in particular the new value is at least
`killTimeout + 2 × pollInterval`, but it does not depend on (and may be
lower than) the value the coordinator had before registration. -/
theorem C8_force_timeout_overwritten (m : Master.State) (g : Graceful.State) :
    (Master.setGraceful m g).timeout = m.killTimeout + 2 * m.pollInterval ∧
    m.killTimeout + 2 * m.pollInterval ≤ (Master.setGraceful m g).timeout ∧
    (∀ g2 : Graceful.State,
      (Master.setGraceful m g).timeout = (Master.setGraceful m g2).timeout) := by
  have heq : (Master.setGraceful m g).timeout
      = m.killTimeout + 2 * m.pollInterval := by
    simp [Master.setGraceful]
    omega
  exact ⟨heq, le_of_eq heq.symm, fun g2 => rfl⟩

/-- C9: on an unexpected worker exit, the worker's record is removed from
the worker map; while the supervisor is shutting down no replacement is
forked; otherwise, when the worker's record shows a lifetime below
`spinTimeout`, the spin-timeout error is logged and the replacement fork
is scheduled after `delayStart` rather than immediately, and when the
lifetime reached `spinTimeout` a replacement is forked immediately. -/
theorem C9_restart_policy (m : Master.State) (pid : Nat) (now : Int)
    (hNodup : (m.workers.map Master.WorkerRecord.pid).Nodup) :
    (∀ r, r ∈ (Master.restartWorker m pid now).workers ↔
        (r ∈ m.workers ∧ r.pid ≠ pid)) ∧
    (m.shuttingDown = true →
        (Master.restartWorker m pid now).action = .noFork) ∧
    (m.shuttingDown = false →
      ∀ w, Master.findPid pid m.workers = some w →
        ((now - w.start < m.spinTimeout →
            (Master.restartWorker m pid now).action
                = .forkDelayed m.delayStart ∧
            (Master.restartWorker m pid now).loggedSpinError = true) ∧
         (m.spinTimeout ≤ now - w.start →
            (Master.restartWorker m pid now).action = .forkImmediate))) := by
  refine ⟨?_, ?_, ?_⟩
  · intro r
    rw [Master.restartWorker_workers]
    exact Master.mem_erasePid_iff hNodup r
  · intro hsd
    simp [Master.restartWorker, hsd]
  · intro hsd w hfind
    constructor
    · intro hlt
      constructor <;> simp [Master.restartWorker, hsd, hfind, hlt]
    · intro hge
      have hnlt : ¬ (now - w.start < m.spinTimeout) := not_lt.mpr hge
      simp [Master.restartWorker, hsd, hfind, hnlt]

/-- Witness for C9: the default-configured supervisor tracking one worker
forked at time 0, which dies at time 100 (lifetime below the 5000ms spin
timeout): the record is removed, the error is logged and the replacement
is delayed by `delayStart` = 60000ms. -/
theorem C9_witness :
    (∀ r, r ∈ (Master.restartWorker Master.exampleState 5 100).workers ↔
        (r ∈ Master.exampleState.workers ∧ r.pid ≠ 5)) ∧
    (Master.restartWorker Master.exampleState 5 100).action
        = Master.RestartAction.forkDelayed 60000 ∧
    (Master.restartWorker Master.exampleState 5 100).loggedSpinError = true :=
  have h := C9_restart_policy Master.exampleState 5 100 (by decide)
  have h2 := (h.2.2 rfl ⟨5, 1, 0⟩ (by decide)).1 (by decide)
  ⟨h.1, h2.1, h2.2⟩
